import Mathlib

/-!
# Verification of the Simple Undetected Prevalence Estimator data pipelines

Shallow embedding of `src/scripts/input_processing.py` and
`src/scripts/output_processing.py` (Cornell Wildlife Health Lab,
Simple Undetected Prevalence Estimator).

Modelling conventions:
* JSON/CSV scalar values are modelled by the `Cell` type; Python numbers
  are modelled by `ℚ` (exact rationals stand in for Python's binary
  floats; every numeric example exercised below is exactly representable).
* Python `dict`s are modelled by association lists in insertion order
  (a `dict` never holds a duplicate key, so first-occurrence update
  semantics coincide with `dict` semantics on the reachable states).
* File-system interaction is modelled by an environment record holding
  the optional contents of each input file, and a result record holding
  the exit code, the tabular/structured outputs, and the two log streams.
-/

namespace Supe

/-- A scalar value as it occurs in the JSON/CSV data handled by the two
scripts: Python `None`, `str`, `int` and `float` (floats modelled by `ℚ`). -/
inductive Cell where
  | null
  | str (s : String)
  | int (n : ℤ)
  | float (q : ℚ)
deriving DecidableEq, Repr

/-- Round-half-to-even (banker's rounding): the behaviour of Python's
built-in `round` on the runtime executing the source.  The source computes
`int(round(original_density_value * aland_sq_km))`; `round` already returns
an integer there, so the outer `int` is the identity. -/
def roundHalfEven (q : ℚ) : ℤ :=
  if q - ⌊q⌋ < 1/2 then ⌊q⌋
  else if q - ⌊q⌋ > 1/2 then ⌊q⌋ + 1
  else if ⌊q⌋ % 2 = 0 then ⌊q⌋ else ⌊q⌋ + 1

/-- `model_log_html` of both scripts: one tagged line of the
human-readable `info.html` log (`f"<{html_element}>{line}</{html_element}>"`). -/
def model_log_html (line : String) (html_element : String) : String :=
  "<" ++ html_element ++ ">" ++ line ++ "</" ++ html_element ++ ">"

/-! ## Sub-administrative areas (input pipeline, Process Subadmin Areas) -/

/-- A raw record of `sub_administrative_area.ndJson`.  The source treats
`_id`, `name`, `full_name` and `aland` as required ("All of the following
properties are required, so do not need to check if they exist"); `extra`
models any further JSON properties of the record, which the projection
drops.  `aland` is the land area in square meters, a JSON number. -/
structure RawSubadminArea where
  _id : String
  name : String
  full_name : String
  aland : ℚ
  extra : List (String × Cell)
deriving DecidableEq, Repr

/-- The `subadmin_area_dict` built for one raw record: exactly the four
required properties, in source order. -/
structure SubadminAreaData where
  _id : String
  name : String
  full_name : String
  aland : ℚ
deriving DecidableEq, Repr

/-- Projection of one raw area record (`subadmin_area_dict[...] = sa[...]`). -/
def subadminRecord (sa : RawSubadminArea) : SubadminAreaData :=
  { _id := sa._id, name := sa.name, full_name := sa.full_name, aland := sa.aland }

/-- The `subadmin_areas_data` list: the per-record projection appended in
input order (`for sa in subadmin_areas: ... append`). -/
def subadmin_areas_data : List RawSubadminArea → List SubadminAreaData
  | [] => []
  | sa :: rest => subadminRecord sa :: subadmin_areas_data rest

/-! ## Demography (input pipeline, Process Demography) -/

/-- One record of `demography.ndJson`: `species`, `metric`, `season_year`
and the `data` mapping of sub-administrative-area id to numeric value
(`season_year` is only echoed into the log, its precise type is
irrelevant here). -/
structure DemoRecord where
  species : String
  metric : String
  season_year : String
  data : List (String × ℚ)
deriving DecidableEq, Repr

/-- The inner linear scan of the density conversion:
`for sa in subadmin_areas_data: if sa.get('_id') == sa_id: ...; break`.
On the first match the data value is replaced by
`int(round(original_density_value * (aland / 1_000_000)))`; with no match
the loop falls through and the value is left unchanged. -/
def convertValue : List SubadminAreaData → String → ℚ → ℚ
  | [], _, v => v
  | sa :: rest, sa_id, v =>
    if sa._id = sa_id then ((roundHalfEven (v * (sa.aland / 1000000)) : ℤ) : ℚ)
    else convertValue rest sa_id v

/-- First match of the linear scan, for specification purposes. -/
def findArea (areas : List SubadminAreaData) (sa_id : String) : Option SubadminAreaData :=
  areas.find? (fun sa => sa._id == sa_id)

/-- Phase 1 of Process Demography, for one record: if `metric` is the
literal `'deer density'`, every `(sa_id, value)` pair of `data` goes
through the conversion scan and the record's `metric` is rewritten to
`'total population (converted from density)'`; all other records pass
through untouched. -/
def processDemo (areas : List SubadminAreaData) (demo : DemoRecord) : DemoRecord :=
  if demo.metric = "deer density" then
    { demo with
      data := demo.data.map (fun kv => (kv.1, convertValue areas kv.1 kv.2))
      metric := "total population (converted from density)" }
  else demo

/-- One step of the summation into `demography_data_dict`:
`if key in d: d[key] += value else: d[key] = value` (update the unique
existing entry, else append at the end — Python dict insertion order). -/
def addToDict : List (String × ℚ) → String → ℚ → List (String × ℚ)
  | [], k, v => [(k, v)]
  | kv :: rest, k, v =>
    if kv.1 = k then (kv.1, kv.2 + v) :: rest
    else kv :: addToDict rest k v

/-- The `demography_data_dict` fold: all records' `data` pairs summed
per area id, records in list order, pairs in mapping order. -/
def sumByArea (demos : List DemoRecord) : List (String × ℚ) :=
  demos.foldl (fun acc demo => demo.data.foldl (fun a kv => addToDict a kv.1 kv.2) acc) []

/-- One row of the aggregated demography output (`{'_id': key, 'value': value}`). -/
structure DemographyRow where
  _id : String
  value : ℚ
deriving DecidableEq, Repr

/-- `demography_data`: the aggregated dict converted into a list of
`{_id, value}` rows in dict (= first-seen) order. -/
def demography_data (demos : List DemoRecord) : List DemographyRow :=
  (sumByArea demos).map (fun kv => { _id := kv.1, value := kv.2 })

/-- All `(area_id, value)` pairs of a demography list in iteration order
(the flattening implicit in the nested summation loops). -/
def allPairs (demos : List DemoRecord) : List (String × ℚ) :=
  (demos.map (fun d => d.data)).flatten

/-- Modelled from the spec: "insertion order = first-seen order during
summation" — the first-seen deduplication of a key sequence, used to
compare the aggregator's key order against the spec's description. -/
def firstSeen (ks : List String) : List String :=
  ks.foldl (fun acc k => if k ∈ acc then acc else acc ++ [k]) []

/-- The total of all values attached to a key across a `(key, value)`
list (specification-side summation). -/
def sumVal : List (String × ℚ) → String → ℚ
  | [], _ => 0
  | kv :: rest, k => (if kv.1 = k then kv.2 else 0) + sumVal rest k

/-! ## Samples (input pipeline, Process Samples) -/

/-- One element of a sample's `tests` list: the `selected_definitive`
flag (required) and the optional `result` field (`none` models a test
dict without a `"result"` key). -/
structure TestRec where
  selected_definitive : Bool
  result : Option String
deriving DecidableEq, Repr

/-- The definitive-test selection for one sample.  `prior` is the value
of the sample's `result` slot before the loop body runs (`none`: the
record has no `result` key; `some r`: it has one with value `r`, possibly
Python `None`).  `tests_selected_definitive` is the filtered list; zero
matches set `result = None`, more than one match is `pass` (the prior
slot is kept), exactly one match copies that test's `result` field
(`None` when the test has no such field). -/
def resolveResult (tests : List TestRec) (prior : Option (Option String)) :
    Option (Option String) :=
  let tests_selected_definitive := tests.filter (fun t => t.selected_definitive == true)
  if tests_selected_definitive.length = 0 then some none
  else if tests_selected_definitive.length > 1 then prior
  else
    match tests_selected_definitive with
    | t :: _ => some t.result
    | [] => prior

/-- A processed sample: `result` resolved by `resolveResult` (the other
steps of the sample loop — sub-administrative-area id resolution and the
`_id` → `id` rename — are reflected in the CSV row construction below). -/
def processSample (tests : List TestRec) (prior : Option (Option String)) :
    Option (Option String) :=
  resolveResult tests prior

/-- One record of `sample.ndJson`, restricted to the fields the script
reads or writes.  `_sub_administrative_area = none` models a record
without the nested reference, `some none` a nested object without an
`_id` field, and `some (some i)` a nested object with `_id = i`.
`result` is the record's `result` slot before processing (`none`: absent). -/
structure SampleRec where
  _id : String
  species : String
  sample_source : String
  season_year : String
  age_group : String
  sex : String
  tests : List TestRec
  _sub_administrative_area : Option (Option String)
  result : Option (Option String)
deriving DecidableEq, Repr

/-- Sample step 2: `sub_administrative_area_id` is the nested `_id` when
present, else `None`. -/
def sampleSubAdminId (s : SampleRec) : Option String :=
  match s._sub_administrative_area with
  | some (some i) => some i
  | some none => none
  | none => none

/-! ## Parameters (input pipeline, Process Parameters) -/

/-- The parsed `params.json`.  `provider_admin_area` models the nested
`_provider._administrative_area.administrative_area` string that is
echoed into the log before `del(params['_provider'])`; `scalars` models
the remaining scalar configuration fields in insertion order (the state
of `params` after the deletion). -/
structure ParamsFile where
  provider_admin_area : String
  scalars : List (String × Cell)
deriving DecidableEq, Repr

/-! ## The tabular (CSV) writer, `csv.DictWriter` with `QUOTE_NONNUMERIC` -/

/-- The decimal digit characters used when a number is serialized. -/
def digitChar (d : Nat) : Char :=
  if d = 0 then '0' else if d = 1 then '1' else if d = 2 then '2'
  else if d = 3 then '3' else if d = 4 then '4' else if d = 5 then '5'
  else if d = 6 then '6' else if d = 7 then '7' else if d = 8 then '8' else '9'

/-- Digits of a natural number, most significant first (fuel-driven;
`natChars` always supplies enough fuel). -/
def natCharsAux : Nat → Nat → List Char
  | 0, _ => []
  | fuel + 1, n =>
    if n < 10 then [digitChar n]
    else natCharsAux fuel (n / 10) ++ [digitChar (n % 10)]

/-- Decimal digits of a natural number. -/
def natChars (n : Nat) : List Char :=
  natCharsAux (n + 1) n

/-- Serialization of a Python `int`: optional minus sign and decimal digits. -/
def intRepr (n : ℤ) : String :=
  String.mk (if n < 0 then '-' :: natChars n.natAbs else natChars n.natAbs)

/-- Serialization of a Python `float`, modelled on the exact rational it
stands for: sign, then the numerator, `'/'`, denominator when the value
is not an integer.  (Python prints decimal notation; only the leading
character class — digit or minus sign, never a quote — matters to the
quoting policy verified here.) -/
def floatRepr (q : ℚ) : String :=
  String.mk
    ((if q.num < 0 then ['-'] else []) ++
      natChars q.num.natAbs ++
      (if q.den = 1 then [] else '/' :: natChars q.den))

/-- CSV quoting of a text token: the token wrapped in double quotes, any
embedded double quote doubled. -/
def quoteChars : List Char → List Char
  | [] => []
  | c :: rest => if c = '"' then '"' :: '"' :: quoteChars rest else c :: quoteChars rest

/-- A quoted CSV field. -/
def quoteStr (s : String) : String :=
  String.mk ('"' :: quoteChars s.data ++ ['"'])

/-- One serialized CSV field under `quoting=csv.QUOTE_NONNUMERIC`: every
non-numeric value is quoted (`None` is written as the quoted empty
string), `int` and `float` values are written bare. -/
def renderCell : Cell → String
  | Cell.null => quoteStr ""
  | Cell.str s => quoteStr s
  | Cell.int n => intRepr n
  | Cell.float q => floatRepr q

/-- Does a serialized field start with a double quote, i.e. is it a
quoted string token rather than a bare numeric literal? -/
def isQuoted (s : String) : Bool :=
  match s.data with
  | [] => false
  | c :: _ => c == '"'

/-- A written delimited file: the fixed header and the data rows (each a
list of cell values in header order). -/
structure CsvFile where
  header : List String
  rows : List (List Cell)
deriving DecidableEq, Repr

/-- The claimed quoting property of a written file: every serialized
field of every row is a quoted string token. -/
def allFieldsQuoted (f : CsvFile) : Bool :=
  f.rows.all (fun row => row.all (fun c => isQuoted (renderCell c)))

/-- `sub_administrative_area.csv`: fieldnames
`["_id", "full_name", "name", "aland"]`, one row per projected record. -/
def subadminCsv (data : List SubadminAreaData) : CsvFile :=
  { header := ["_id", "full_name", "name", "aland"]
    rows := data.map (fun sa =>
      [Cell.str sa._id, Cell.str sa.full_name, Cell.str sa.name, Cell.float sa.aland]) }

/-- `demography.csv`: fieldnames `["_id", "value"]`. -/
def demographyCsv (rows : List DemographyRow) : CsvFile :=
  { header := ["_id", "value"]
    rows := rows.map (fun r => [Cell.str r._id, Cell.float r.value]) }

/-- The `result` slot of a processed sample as a CSV cell: a present
value is text, a present `None` is null, an absent slot is filled by the
`DictWriter` `restval` (the empty string). -/
def resultCell : Option (Option String) → Cell
  | some (some v) => Cell.str v
  | some none => Cell.null
  | none => Cell.str ""

/-- `sub_administrative_area_id` as a CSV cell. -/
def subAdminIdCell : Option String → Cell
  | some i => Cell.str i
  | none => Cell.null

/-- `sample.csv`: the fixed eight-column projection of each processed
sample (any other record fields are dropped by `extrasaction='ignore'`). -/
def sampleCsv (samples : List SampleRec) : CsvFile :=
  { header := ["id", "species", "sample_source", "season_year", "age_group", "sex",
               "result", "sub_administrative_area_id"]
    rows := samples.map (fun s =>
      [Cell.str s._id, Cell.str s.species, Cell.str s.sample_source,
       Cell.str s.season_year, Cell.str s.age_group, Cell.str s.sex,
       resultCell (processSample s.tests s.result),
       subAdminIdCell (sampleSubAdminId s)]) }

/-- `DictWriter` field lookup for the params row: the value stored under
the key, or the `restval` empty string when the key is absent. -/
def getParamCell (scalars : List (String × Cell)) (k : String) : Cell :=
  match (scalars.find? (fun kv => kv.1 == k)).map Prod.snd with
  | some c => c
  | none => Cell.str ""

/-- `params.csv`: fieldnames fixed to `["alpha", "sensitivity"]`, a single
data row, `extrasaction='ignore'` dropping every other scalar field. -/
def paramsCsv (scalars : List (String × Cell)) : CsvFile :=
  { header := ["alpha", "sensitivity"]
    rows := [[getParamCell scalars "alpha", getParamCell scalars "sensitivity"]] }

/-- The written params fields as (fieldname, value) pairs — what the
single data row of `params.csv` asserts about the parameter set. -/
def paramsWrittenPairs (scalars : List (String × Cell)) : List (String × Cell) :=
  [("alpha", getParamCell scalars "alpha"), ("sensitivity", getParamCell scalars "sensitivity")]

/-! ## The input pipeline driver -/

/-- The optional contents of the four input files read by
`input_processing.py` (`none`: the file is absent, raising
`FileNotFoundError` on open). -/
structure InputEnv where
  params : Option ParamsFile
  subadmin_areas : Option (List RawSubadminArea)
  demography : Option (List DemoRecord)
  samples : Option (List SampleRec)
deriving DecidableEq, Repr

/-- The observable outcome of an input-pipeline run: exit code, the
tabular files written (in write order), the execution log and the
`info.html` log.  Timestamped boilerplate lines are omitted. -/
structure InputRun where
  exit_code : Nat
  files : List (String × CsvFile)
  execution_log : List String
  info_html : List String
deriving DecidableEq, Repr

/-- The `info.html` lines written before any file is processed. -/
def initialInfo : List String :=
  [model_log_html "Model Execution Summary" "h3",
   model_log_html "Model: Simple Undetected Prevalence Estimator Model" "p"]

/-- The execution-log lines written before any file is processed. -/
def initialExecLog : List String :=
  ["Model: Simple Undetected Prevalence Estimator Model",
   "This log records data for debugging purposes in the case of a model execution error."]

/-- `input_processing.py` end to end: parameters, sub-administrative
areas, demography and samples, each stage exiting with code 1 (and
writing nothing further) when its input file is absent.  Note the write
order of the source: `sub_administrative_area.csv` is written before the
demography file is opened, `demography.csv` before the sample file, and
`params.csv` last.  (The `json_stringify` dump of the parameters into the
log is formatting-only and omitted.) -/
def input_processing (env : InputEnv) : InputRun :=
  match env.params with
  | none =>
    { exit_code := 1
      files := []
      execution_log := initialExecLog ++ ["params.json File does not exist."]
      info_html := initialInfo ++
        [model_log_html "ERROR" "h4",
         model_log_html "Parameters (params.json) file not found." "p"] }
  | some params =>
    let infoAfterParams := initialInfo ++
      [model_log_html ("Provider area: " ++ params.provider_admin_area) "p",
       model_log_html "User provided parameters" "h4"]
    let execAfterParams := initialExecLog ++ ["Parameter file loaded successfully"]
    match env.subadmin_areas with
    | none =>
      { exit_code := 1
        files := []
        execution_log := execAfterParams ++ ["sub_administrative_area.ndJson File does not exist."]
        info_html := infoAfterParams ++
          [model_log_html "ERROR" "h4",
           model_log_html "Subadmin areas (sub_administrative_area.ndJson) file was expected but not found." "p"] }
    | some rawAreas =>
      let areasData := subadmin_areas_data rawAreas
      let areasFile := ("sub_administrative_area.csv", subadminCsv areasData)
      let execAfterAreas := execAfterParams ++
        ["sub_administrative_area.ndJson file loaded successfully"]
      match env.demography with
      | none =>
        { exit_code := 1
          files := [areasFile]
          execution_log := execAfterAreas ++ ["demography.json file does not exist."]
          info_html := infoAfterParams ++
            [model_log_html "ERROR" "h4",
             model_log_html "Demography (demography.json) file was expected but not found." "p"] }
      | some demos =>
        let demosProcessed := demos.map (processDemo areasData)
        let demoFile := ("demography.csv", demographyCsv (demography_data demosProcessed))
        let infoAfterDemo := infoAfterParams ++
          [model_log_html "Demographic data" "h4"] ++
          demosProcessed.map (fun d =>
            model_log_html (d.species ++ " " ++ d.metric ++ " for season-year " ++ d.season_year) "p")
        let execAfterDemo := execAfterAreas ++ ["Demography file loaded successfully"]
        match env.samples with
        | none =>
          { exit_code := 1
            files := [areasFile, demoFile]
            execution_log := execAfterDemo ++ ["sample.ndJjon File does not exist."]
            info_html := infoAfterDemo ++
              [model_log_html "ERROR" "h4",
               model_log_html "Sample (sample.ndJson) file was expected but not found." "p"] }
        | some samples =>
          { exit_code := 0
            files := [areasFile, demoFile,
                      ("sample.csv", sampleCsv samples),
                      ("params.csv", paramsCsv params.scalars)]
            execution_log := execAfterDemo ++ ["Sample file loaded successfully"]
            info_html := infoAfterDemo }

/-! ## The output pipeline (`output_processing.py`)

`csv.DictReader` delivers every field of
`SimpleUndetectedPrevalenceEstimatorOutput.csv` as text; the conversion
loop coerces the fixed text/integer/float field sets in place.  A row is
an association list of (fieldname, cell); missing keys model `KeyError`. -/

/-- A model-output row during coercion. -/
abbrev Row := List (String × Cell)

/-- `each_row[field]` as a total lookup: `none` models the `KeyError`
raised on a missing field. -/
def getCell? (row : Row) (k : String) : Option Cell :=
  (row.find? (fun kv => kv.1 == k)).map Prod.snd

/-- `each_row[field] = v` on a dict whose key is present (replaces the
value, keeps key order). -/
def setCell (row : Row) (k : String) (v : Cell) : Row :=
  row.map (fun kv => if kv.1 = k then (kv.1, v) else kv)

/-- Value of a decimal digit character, `none` for any other character. -/
def digitVal? (c : Char) : Option Nat :=
  if c = '0' then some 0 else if c = '1' then some 1 else if c = '2' then some 2
  else if c = '3' then some 3 else if c = '4' then some 4 else if c = '5' then some 5
  else if c = '6' then some 6 else if c = '7' then some 7 else if c = '8' then some 8
  else if c = '9' then some 9 else none

/-- Accumulates a digit run into a number; fails on the first non-digit. -/
def digitsAux : Nat → List Char → Option Nat
  | acc, [] => some acc
  | acc, c :: cs =>
    match digitVal? c with
    | some d => digitsAux (acc * 10 + d) cs
    | none => none

/-- A non-empty all-digit run as a number. -/
def digitsVal? : List Char → Option Nat
  | [] => none
  | cs => digitsAux 0 cs

/-- Python `int(s)` on the strings this pipeline can receive: optional
sign followed by decimal digits; anything else raises `ValueError`
(modelled as `none`).  (Python additionally strips whitespace and allows
`_` digit separators; neither occurs in the model output file.) -/
def pyInt? (s : String) : Option ℤ :=
  match s.data with
  | '-' :: cs => (digitsVal? cs).map (fun n => -(n : ℤ))
  | '+' :: cs => (digitsVal? cs).map (fun n => (n : ℤ))
  | cs => (digitsVal? cs).map (fun n => (n : ℤ))

/-- Splits a character run at the first `'.'`. -/
def splitAtDot : List Char → List Char × Option (List Char)
  | [] => ([], none)
  | c :: rest =>
    if c = '.' then ([], some rest)
    else
      let p := splitAtDot rest
      (c :: p.1, p.2)

/-- An unsigned decimal literal (`"12"`, `"12."`, `".5"`, `"12.5"`) as an
exact rational; `none` on anything else. -/
def decimalVal? (cs : List Char) : Option ℚ :=
  match splitAtDot cs with
  | (ip, none) => (digitsVal? ip).map (fun n => Rat.divInt n 1)
  | ([], some []) => none
  | ([], some fp) => (digitsVal? fp).map (fun f => Rat.divInt f (10 ^ fp.length))
  | (ip, some []) => (digitsVal? ip).map (fun n => Rat.divInt n 1)
  | (ip, some fp) =>
    match digitsVal? ip, digitsVal? fp with
    | some n, some f => some (Rat.divInt (n * 10 ^ fp.length + f) (10 ^ fp.length))
    | _, _ => none

/-- Python `float(s)` on the strings this pipeline can receive: optional
sign followed by a plain decimal literal; anything else raises
`ValueError` (modelled as `none`).  (Exponent/`inf`/`nan` spellings do
not occur in the model output file.) -/
def pyFloat? (s : String) : Option ℚ :=
  match s.data with
  | '-' :: cs => (decimalVal? cs).map (fun q => -q)
  | '+' :: cs => decimalVal? cs
  | cs => decimalVal? cs

/-- Python `int(x)` truncation toward zero, for a numeric cell. -/
def ratTrunc (q : ℚ) : ℤ :=
  if q < 0 then q.ceil else q.floor

/-- Coercion of one text field of one row: `"NA"` becomes `None`, every
other value is left as it is; a missing field is a `KeyError`. -/
def coerceTextField (row : Row) (fld : String) : Option Row :=
  match getCell? row fld with
  | none => none
  | some c => if c = Cell.str "NA" then some (setCell row fld Cell.null) else some row

/-- Coercion of one integer field of one row: `"NA"` becomes `None`,
any other string is parsed with `int(...)`, a `ValueError` degrading to
`None`; a missing field is a `KeyError`, and `int(None)` (a short row
filled by the reader's `restval`) is a `TypeError` — both abort. -/
def coerceIntField (row : Row) (fld : String) : Option Row :=
  match getCell? row fld with
  | none => none
  | some c =>
    if c = Cell.str "NA" then some (setCell row fld Cell.null)
    else
      match c with
      | Cell.str s =>
        some (setCell row fld (match pyInt? s with
          | some n => Cell.int n
          | none => Cell.null))
      | Cell.int n => some (setCell row fld (Cell.int n))
      | Cell.float q => some (setCell row fld (Cell.int (ratTrunc q)))
      | Cell.null => none

/-- Coercion of one float field of one row, analogous to the integer case. -/
def coerceFloatField (row : Row) (fld : String) : Option Row :=
  match getCell? row fld with
  | none => none
  | some c =>
    if c = Cell.str "NA" then some (setCell row fld Cell.null)
    else
      match c with
      | Cell.str s =>
        some (setCell row fld (match pyFloat? s with
          | some q => Cell.float q
          | none => Cell.null))
      | Cell.int n => some (setCell row fld (Cell.float (n : ℚ)))
      | Cell.float q => some (setCell row fld (Cell.float q))
      | Cell.null => none

/-- One inner `for each_field in ...` loop over a fixed field tuple. -/
def coerceFields (step : Row → String → Option Row) : List String → Row → Option Row
  | [], row => some row
  | fld :: rest, row =>
    match step row fld with
    | none => none
    | some row2 => coerceFields step rest row2

/-- `text_fields = ("SubAdminID", "SubAdminName", "Result")`. -/
def text_fields : List String := ["SubAdminID", "SubAdminName", "Result"]

/-- `integer_fields = ("n", "N")`. -/
def integer_fields : List String := ["n", "N"]

/-- `float_fields = ("bayes", "freq", "freq.se")`. -/
def float_fields : List String := ["bayes", "freq", "freq.se"]

/-- The whole per-row conversion: the three field loops in source order. -/
def coerceRow (row : Row) : Option Row :=
  match coerceFields coerceTextField text_fields row with
  | none => none
  | some r1 =>
    match coerceFields coerceIntField integer_fields r1 with
    | none => none
    | some r2 => coerceFields coerceFloatField float_fields r2

/-- The outer `for each_row in model_output_dictlist` loop under the
single `try`: the first exception aborts the whole step. -/
def coerceRows : List Row → Option (List Row)
  | [] => some []
  | r :: rest =>
    match coerceRow r with
    | none => none
    | some r2 =>
      match coerceRows rest with
      | none => none
      | some rest2 => some (r2 :: rest2)

/-- A raw `csv.DictReader` row: every value arrives as text. -/
def rawRow (l : List (String × String)) : Row :=
  l.map (fun kv => (kv.1, Cell.str kv.2))

/-- The observable outcome of an output-pipeline run: exit code, the
structured `output.json` document (absent when the run aborts), and the
two log streams. -/
structure OutputRun where
  exit_code : Nat
  output_json : Option (List Row)
  execution_log : List String
  info_html : List String
deriving DecidableEq, Repr

/-- `output_processing.py` end to end: read the model output rows, coerce
them, and either abort with exit code 1 writing no `output.json`, or
write the coerced rows as the structured document. -/
def output_processing (rows : List (List (String × String))) : OutputRun :=
  match coerceRows (rows.map rawRow) with
  | none =>
    { exit_code := 1
      output_json := none
      execution_log := ["Failed to convert model output field value to floating point."]
      info_html := [model_log_html "Model Exports" "h3",
                    model_log_html "ERROR: Failed to create output file." "p"] }
  | some coerced =>
    { exit_code := 0
      output_json := some coerced
      execution_log := []
      info_html := [model_log_html "Model Exports" "h3",
                    model_log_html "Model exports successfully created." "p"] }

/-- The shape of a `DictReader` row for the fixed header of the model
output file, with one cell per column. -/
def cellRow (c1 c2 c3 c4 c5 c6 c7 c8 : Cell) : Row :=
  [("SubAdminID", c1), ("SubAdminName", c2), ("Result", c3),
   ("n", c4), ("N", c5), ("bayes", c6), ("freq", c7), ("freq.se", c8)]

/-- The net effect of the text-field coercion on one cell. -/
def textCoerced (c : Cell) : Cell :=
  if c = Cell.str "NA" then Cell.null else c

/-- The net effect of the integer-field coercion on one text value. -/
def coercedInt (s : String) : Cell :=
  if s = "NA" then Cell.null
  else match pyInt? s with
    | some n => Cell.int n
    | none => Cell.null

/-- The net effect of the float-field coercion on one text value. -/
def coercedFloat (s : String) : Cell :=
  if s = "NA" then Cell.null
  else match pyFloat? s with
    | some q => Cell.float q
    | none => Cell.null

/-- The net effect of the text-field coercion on one text value. -/
def coercedText (s : String) : Cell :=
  if s = "NA" then Cell.null else Cell.str s

/-! ## Lemmas: the density-conversion scan -/

theorem convertValue_of_find {areas : List SubadminAreaData} {said : String}
    {sa : SubadminAreaData} (v : ℚ) (h : findArea areas said = some sa) :
    convertValue areas said v = ((roundHalfEven (v * (sa.aland / 1000000)) : ℤ) : ℚ) := by
  induction areas with
  | nil => simp [findArea] at h
  | cons a rest ih =>
    by_cases ha : a._id = said
    · rw [findArea, List.find?_cons_of_pos _ (by simpa using ha)] at h
      obtain rfl : a = sa := by simpa using h
      simp [convertValue, ha]
    · rw [findArea, List.find?_cons_of_neg _ (by simpa using ha)] at h
      rw [convertValue, if_neg ha]
      exact ih h

theorem convertValue_of_no_match {areas : List SubadminAreaData} {said : String}
    (h : ∀ sa ∈ areas, sa._id ≠ said) (v : ℚ) :
    convertValue areas said v = v := by
  induction areas with
  | nil => rfl
  | cons a rest ih =>
    rw [convertValue, if_neg (h a (List.mem_cons_self a rest))]
    exact ih fun sa hsa => h sa (List.mem_cons_of_mem a hsa)

theorem findArea_eq_none {areas : List SubadminAreaData} {said : String}
    (h : ∀ sa ∈ areas, sa._id ≠ said) : findArea areas said = none := by
  rw [findArea, List.find?_eq_none]
  intro sa hsa
  simpa using h sa hsa

/-! ## Lemmas: the per-area summation fold -/

theorem sumVal_addToDict (d : List (String × ℚ)) (k : String) (v : ℚ) (k' : String) :
    sumVal (addToDict d k v) k' = sumVal d k' + (if k = k' then v else 0) := by
  induction d with
  | nil => simp [addToDict, sumVal]
  | cons kv rest ih =>
    obtain ⟨k1, v1⟩ := kv
    by_cases h1 : k1 = k
    · subst h1
      rw [addToDict, if_pos rfl]
      by_cases h2 : k1 = k'
      · simp [sumVal, h2]; ring
      · simp [sumVal, h2]
    · rw [addToDict, if_neg h1]
      by_cases h2 : k1 = k'
      · simp [sumVal, h2, ih]; ring
      · simp [sumVal, h2, ih]

theorem keys_addToDict (d : List (String × ℚ)) (k : String) (v : ℚ) :
    (addToDict d k v).map Prod.fst =
      if k ∈ d.map Prod.fst then d.map Prod.fst else d.map Prod.fst ++ [k] := by
  induction d with
  | nil => simp [addToDict]
  | cons kv rest ih =>
    obtain ⟨k1, v1⟩ := kv
    by_cases h1 : k1 = k
    · subst h1
      simp [addToDict]
    · rw [addToDict, if_neg h1]
      by_cases h2 : k ∈ rest.map Prod.fst
      · simp [h2, ih, Ne.symm h1]
      · simp [h2, ih, Ne.symm h1]

theorem nodup_keys_addToDict {d : List (String × ℚ)} (hd : (d.map Prod.fst).Nodup)
    (k : String) (v : ℚ) : ((addToDict d k v).map Prod.fst).Nodup := by
  rw [keys_addToDict]
  by_cases h : k ∈ d.map Prod.fst
  · simpa [h] using hd
  · simpa [h, List.nodup_append, List.disjoint_singleton] using hd

/-- The inner fold of the summation loop over a flat pair list. -/
def sumFold (acc : List (String × ℚ)) (l : List (String × ℚ)) : List (String × ℚ) :=
  l.foldl (fun a kv => addToDict a kv.1 kv.2) acc

theorem sumVal_sumFold (l : List (String × ℚ)) :
    ∀ (acc : List (String × ℚ)) (k : String),
      sumVal (sumFold acc l) k = sumVal acc k + sumVal l k := by
  induction l with
  | nil => intro acc k; simp [sumFold, sumVal]
  | cons kv rest ih =>
    intro acc k
    rw [sumFold, List.foldl_cons]
    show sumVal (sumFold (addToDict acc kv.1 kv.2) rest) k = _
    rw [ih, sumVal_addToDict, sumVal]
    by_cases h : kv.1 = k
    · simp [h]; ring
    · simp [h]

theorem keys_sumFold (l : List (String × ℚ)) :
    ∀ acc : List (String × ℚ),
      (sumFold acc l).map Prod.fst =
        (l.map Prod.fst).foldl (fun ks k => if k ∈ ks then ks else ks ++ [k])
          (acc.map Prod.fst) := by
  induction l with
  | nil => intro acc; simp [sumFold]
  | cons kv rest ih =>
    intro acc
    rw [sumFold, List.foldl_cons]
    show (sumFold (addToDict acc kv.1 kv.2) rest).map Prod.fst = _
    rw [ih, keys_addToDict]
    simp [List.foldl_cons]

theorem nodup_keys_sumFold (l : List (String × ℚ)) :
    ∀ {acc : List (String × ℚ)}, (acc.map Prod.fst).Nodup →
      ((sumFold acc l).map Prod.fst).Nodup := by
  induction l with
  | nil => intro acc h; simpa [sumFold] using h
  | cons kv rest ih =>
    intro acc h
    rw [sumFold, List.foldl_cons]
    exact ih (nodup_keys_addToDict h kv.1 kv.2)

theorem sumVal_eq_zero_of_not_mem {d : List (String × ℚ)} {k : String}
    (h : k ∉ d.map Prod.fst) : sumVal d k = 0 := by
  induction d with
  | nil => rfl
  | cons kv rest ih =>
    simp only [List.map_cons, List.mem_cons, not_or] at h
    rw [sumVal, if_neg (fun hk => h.1 hk.symm), ih h.2, add_zero]

theorem sumVal_of_mem_nodup {d : List (String × ℚ)} {k : String} {v : ℚ}
    (hd : (d.map Prod.fst).Nodup) (hm : (k, v) ∈ d) : sumVal d k = v := by
  induction d with
  | nil => simp at hm
  | cons kv rest ih =>
    simp only [List.map_cons, List.nodup_cons] at hd
    rcases List.mem_cons.mp hm with h | h
    · obtain rfl : kv = (k, v) := h.symm
      have : k ∉ rest.map Prod.fst := hd.1
      rw [sumVal, if_pos rfl, sumVal_eq_zero_of_not_mem this, add_zero]
    · have hk : kv.1 ≠ k := by
        intro he
        exact hd.1 (he ▸ List.mem_map_of_mem Prod.fst h)
      rw [sumVal, if_neg hk, ih hd.2 h, zero_add]

theorem sumVal_append (l1 l2 : List (String × ℚ)) (k : String) :
    sumVal (l1 ++ l2) k = sumVal l1 k + sumVal l2 k := by
  induction l1 with
  | nil => simp [sumVal]
  | cons kv rest ih => rw [List.cons_append, sumVal, sumVal, ih]; ring

theorem sumByArea_eq_sumFold (demos : List DemoRecord) :
    sumByArea demos = sumFold [] (allPairs demos) := by
  suffices h : ∀ acc,
      demos.foldl (fun acc demo => demo.data.foldl (fun a kv => addToDict a kv.1 kv.2) acc) acc
        = sumFold acc (allPairs demos) by
    exact h []
  induction demos with
  | nil => intro acc; simp [allPairs, sumFold]
  | cons d rest ih =>
    intro acc
    rw [List.foldl_cons, ih]
    simp [allPairs, sumFold, List.foldl_append]

theorem sumVal_sumByArea (demos : List DemoRecord) (k : String) :
    sumVal (sumByArea demos) k = sumVal (allPairs demos) k := by
  rw [sumByArea_eq_sumFold, sumVal_sumFold]
  simp [sumVal]

theorem keys_sumByArea (demos : List DemoRecord) :
    (sumByArea demos).map Prod.fst = firstSeen ((allPairs demos).map Prod.fst) := by
  rw [sumByArea_eq_sumFold, keys_sumFold]
  rfl

theorem nodup_keys_sumByArea (demos : List DemoRecord) :
    ((sumByArea demos).map Prod.fst).Nodup := by
  rw [sumByArea_eq_sumFold]
  exact nodup_keys_sumFold _ (by simp)

theorem sumVal_map_keyfix {l : List (String × ℚ)} {k : String} {g : String → ℚ → ℚ}
    (hg : ∀ v, g k v = v) :
    sumVal (l.map (fun kv => (kv.1, g kv.1 kv.2))) k = sumVal l k := by
  induction l with
  | nil => rfl
  | cons kv rest ih =>
    rw [List.map_cons, sumVal, sumVal, ih]
    by_cases h : kv.1 = k
    · simp only [h, if_pos rfl, hg]
    · simp [h]

theorem sumVal_processDemo_no_match {areas : List SubadminAreaData} {said : String}
    (hno : ∀ sa ∈ areas, sa._id ≠ said) (demo : DemoRecord) :
    sumVal (processDemo areas demo).data said = sumVal demo.data said := by
  rw [processDemo]
  by_cases hm : demo.metric = "deer density"
  · rw [if_pos hm]
    exact sumVal_map_keyfix (convertValue_of_no_match hno)
  · rw [if_neg hm]

theorem sumVal_allPairs_processDemo {areas : List SubadminAreaData} {said : String}
    (hno : ∀ sa ∈ areas, sa._id ≠ said) (demos : List DemoRecord) :
    sumVal (allPairs (demos.map (processDemo areas))) said = sumVal (allPairs demos) said := by
  induction demos with
  | nil => rfl
  | cons d rest ih =>
    simp only [allPairs, List.map_cons, List.flatten_cons] at ih ⊢
    rw [sumVal_append, sumVal_append, ih, sumVal_processDemo_no_match hno]

/-! ## Lemmas: per-field coercion on the fixed-header row shape -/

theorem coerceText_SubAdminID (c1 c2 c3 c4 c5 c6 c7 c8 : Cell) :
    coerceTextField (cellRow c1 c2 c3 c4 c5 c6 c7 c8) "SubAdminID"
      = some (cellRow (textCoerced c1) c2 c3 c4 c5 c6 c7 c8) := by
  by_cases h : c1 = Cell.str "NA" <;>
    simp [coerceTextField, getCell?, setCell, cellRow, textCoerced, h]

theorem coerceText_SubAdminName (c1 c2 c3 c4 c5 c6 c7 c8 : Cell) :
    coerceTextField (cellRow c1 c2 c3 c4 c5 c6 c7 c8) "SubAdminName"
      = some (cellRow c1 (textCoerced c2) c3 c4 c5 c6 c7 c8) := by
  by_cases h : c2 = Cell.str "NA" <;>
    simp [coerceTextField, getCell?, setCell, cellRow, textCoerced, h]

theorem coerceText_Result (c1 c2 c3 c4 c5 c6 c7 c8 : Cell) :
    coerceTextField (cellRow c1 c2 c3 c4 c5 c6 c7 c8) "Result"
      = some (cellRow c1 c2 (textCoerced c3) c4 c5 c6 c7 c8) := by
  by_cases h : c3 = Cell.str "NA" <;>
    simp [coerceTextField, getCell?, setCell, cellRow, textCoerced, h]

theorem coerceInt_n (c1 c2 c3 c5 c6 c7 c8 : Cell) (s : String) :
    coerceIntField (cellRow c1 c2 c3 (Cell.str s) c5 c6 c7 c8) "n"
      = some (cellRow c1 c2 c3 (coercedInt s) c5 c6 c7 c8) := by
  by_cases h : s = "NA" <;>
    simp [coerceIntField, getCell?, setCell, cellRow, coercedInt, h]

theorem coerceInt_N (c1 c2 c3 c4 c6 c7 c8 : Cell) (s : String) :
    coerceIntField (cellRow c1 c2 c3 c4 (Cell.str s) c6 c7 c8) "N"
      = some (cellRow c1 c2 c3 c4 (coercedInt s) c6 c7 c8) := by
  by_cases h : s = "NA" <;>
    simp [coerceIntField, getCell?, setCell, cellRow, coercedInt, h]

theorem coerceFloat_bayes (c1 c2 c3 c4 c5 c7 c8 : Cell) (s : String) :
    coerceFloatField (cellRow c1 c2 c3 c4 c5 (Cell.str s) c7 c8) "bayes"
      = some (cellRow c1 c2 c3 c4 c5 (coercedFloat s) c7 c8) := by
  by_cases h : s = "NA" <;>
    simp [coerceFloatField, getCell?, setCell, cellRow, coercedFloat, h]

theorem coerceFloat_freq (c1 c2 c3 c4 c5 c6 c8 : Cell) (s : String) :
    coerceFloatField (cellRow c1 c2 c3 c4 c5 c6 (Cell.str s) c8) "freq"
      = some (cellRow c1 c2 c3 c4 c5 c6 (coercedFloat s) c8) := by
  by_cases h : s = "NA" <;>
    simp [coerceFloatField, getCell?, setCell, cellRow, coercedFloat, h]

theorem coerceFloat_freqse (c1 c2 c3 c4 c5 c6 c7 : Cell) (s : String) :
    coerceFloatField (cellRow c1 c2 c3 c4 c5 c6 c7 (Cell.str s)) "freq.se"
      = some (cellRow c1 c2 c3 c4 c5 c6 c7 (coercedFloat s)) := by
  by_cases h : s = "NA" <;>
    simp [coerceFloatField, getCell?, setCell, cellRow, coercedFloat, h]

theorem textCoerced_str (s : String) : textCoerced (Cell.str s) = coercedText s := by
  by_cases h : s = "NA" <;> simp [textCoerced, coercedText, h]

/-! ## Lemmas: structural failure of the coercion step -/

theorem keys_setCell (row : Row) (k : String) (v : Cell) :
    (setCell row k v).map Prod.fst = row.map Prod.fst := by
  induction row with
  | nil => rfl
  | cons kv rest ih =>
    simp only [setCell] at ih ⊢
    by_cases h : kv.1 = k <;> simp [h, ih]

theorem getCell?_none_iff (row : Row) (k : String) :
    getCell? row k = none ↔ k ∉ row.map Prod.fst := by
  rw [getCell?, Option.map_eq_none', List.find?_eq_none]
  constructor
  · intro h hk
    obtain ⟨kv, hkv, hfst⟩ := List.mem_map.mp hk
    exact absurd (by simpa using hfst) (by simpa using h kv hkv)
  · intro h kv hkv
    simp only [beq_iff_eq]
    intro he
    exact h (he ▸ List.mem_map_of_mem Prod.fst hkv)

theorem coerceTextField_some_keys {row r' : Row} {fld : String}
    (h : coerceTextField row fld = some r') : r'.map Prod.fst = row.map Prod.fst := by
  rw [coerceTextField] at h
  cases hg : getCell? row fld with
  | none =>
    rw [hg] at h
    exact absurd ((rfl : (none : Option Row) = none) ▸ h) (by simp)
  | some c =>
    rw [hg] at h
    have h2 : (if c = Cell.str "NA" then some (setCell row fld Cell.null)
        else some row) = some r' := h
    by_cases hc : c = Cell.str "NA"
    · rw [if_pos hc] at h2
      obtain rfl : setCell row fld Cell.null = r' := Option.some.inj h2
      exact keys_setCell row fld Cell.null
    · rw [if_neg hc] at h2
      obtain rfl : row = r' := Option.some.inj h2
      rfl

theorem coerceFields_text_keys :
    ∀ (flds : List String) {row r' : Row},
      coerceFields coerceTextField flds row = some r' →
      r'.map Prod.fst = row.map Prod.fst := by
  intro flds
  induction flds with
  | nil =>
    intro row r' h
    obtain rfl : row = r' := by simpa [coerceFields] using h
    rfl
  | cons fld rest ih =>
    intro row r' h
    rw [coerceFields] at h
    cases hs : coerceTextField row fld with
    | none =>
      rw [hs] at h
      exact absurd ((rfl : (none : Option Row) = none) ▸ h) (by simp)
    | some row2 =>
      rw [hs] at h
      have h2 : coerceFields coerceTextField rest row2 = some r' := h
      rw [ih h2, coerceTextField_some_keys hs]

theorem coerceRow_none_of_missing_n {row : Row} (h : getCell? row "n" = none) :
    coerceRow row = none := by
  have hint : ∀ r1 : Row, r1.map Prod.fst = row.map Prod.fst →
      coerceFields coerceIntField integer_fields r1 = none := by
    intro r1 hkeys
    have hk : getCell? r1 "n" = none := by
      rw [getCell?_none_iff, hkeys, ← getCell?_none_iff]
      exact h
    simp only [integer_fields, coerceFields, coerceIntField, hk]
  rw [coerceRow]
  cases h1 : coerceFields coerceTextField text_fields row with
  | none => rfl
  | some r1 =>
    dsimp only
    rw [hint r1 (coerceFields_text_keys text_fields h1)]

theorem coerceRows_none_of_mem {rs : List Row} {r : Row}
    (hmem : r ∈ rs) (hfail : coerceRow r = none) : coerceRows rs = none := by
  induction rs with
  | nil => simp at hmem
  | cons r0 rest ih =>
    rcases List.mem_cons.mp hmem with h | h
    · subst h
      rw [coerceRows, hfail]
    · rw [coerceRows]
      cases h0 : coerceRow r0 with
      | none => rfl
      | some r2 =>
        dsimp only
        rw [ih h]

/-! ## Lemmas: association-list lookup under unique keys -/

theorem find?_eq_of_nodup {l : List (String × Cell)} {k : String} {v : Cell}
    (hnd : (l.map Prod.fst).Nodup) (hm : (k, v) ∈ l) :
    l.find? (fun kv => kv.1 == k) = some (k, v) := by
  induction l with
  | nil => simp at hm
  | cons kv rest ih =>
    simp only [List.map_cons, List.nodup_cons] at hnd
    rcases List.mem_cons.mp hm with h | h
    · subst h
      simp [List.find?_cons_of_pos]
    · have hk : kv.1 ≠ k := by
        intro he
        exact hnd.1 (he ▸ List.mem_map_of_mem Prod.fst h)
      rw [List.find?_cons_of_neg _ (by simpa using hk)]
      exact ih hnd.2 h

/-! ## Lemmas: the `QUOTE_NONNUMERIC` quoting discipline -/

theorem isQuoted_quoteStr (s : String) : isQuoted (quoteStr s) = true := rfl

theorem digitChar_ne_quote (d : Nat) : digitChar d ≠ '"' := by
  rw [digitChar]
  split_ifs <;> decide

theorem natCharsAux_ne_quote :
    ∀ (fuel n : Nat) {c : Char}, c ∈ natCharsAux fuel n → c ≠ '"' := by
  intro fuel
  induction fuel with
  | zero => intro n c h; simp [natCharsAux] at h
  | succ fuel ih =>
    intro n c h
    rw [natCharsAux] at h
    by_cases hn : n < 10
    · rw [if_pos hn] at h
      obtain rfl : c = digitChar n := by simpa using h
      exact digitChar_ne_quote n
    · rw [if_neg hn] at h
      rcases List.mem_append.mp h with h | h
      · exact ih _ h
      · obtain rfl : c = digitChar (n % 10) := by simpa using h
        exact digitChar_ne_quote (n % 10)

theorem isQuoted_mk_eq_false {l : List Char} (h : ∀ c ∈ l, c ≠ '"') :
    isQuoted (String.mk l) = false := by
  cases l with
  | nil => rfl
  | cons c rest =>
    have := h c (List.mem_cons_self c rest)
    simpa [isQuoted] using this

theorem isQuoted_intRepr (n : ℤ) : isQuoted (intRepr n) = false := by
  rw [intRepr]
  apply isQuoted_mk_eq_false
  intro c hc
  by_cases hn : n < 0
  · rw [if_pos hn] at hc
    rcases List.mem_cons.mp hc with h | h
    · subst h; decide
    · exact natCharsAux_ne_quote _ _ h
  · rw [if_neg hn] at hc
    exact natCharsAux_ne_quote _ _ hc

theorem isQuoted_floatRepr (q : ℚ) : isQuoted (floatRepr q) = false := by
  rw [floatRepr]
  apply isQuoted_mk_eq_false
  intro c hc
  rcases List.mem_append.mp hc with h | h
  · rcases List.mem_append.mp h with h | h
    · by_cases hn : q.num < 0
      · rw [if_pos hn] at h
        obtain rfl : c = '-' := by simpa using h
        decide
      · rw [if_neg hn] at h
        simp at h
    · exact natCharsAux_ne_quote _ _ h
  · by_cases hd : q.den = 1
    · rw [if_pos hd] at h
      simp at h
    · rw [if_neg hd] at h
      rcases List.mem_cons.mp h with h | h
      · subst h; decide
      · exact natCharsAux_ne_quote _ _ h

/-! ## The claims -/

/-- Claim C1: for every demography record whose `metric` is the literal
`"deer density"` and every data pair whose area id matches a normalized
area record (first match of the linear scan), the pipeline replaces the
value with `round(density_value * (land_area_m2 / 1_000_000))` as an
integer using round-half-to-even on ties, and rewrites the record's
`metric` to `"total population (converted from density)"`; in particular
`land_area_m2 = 2_000_000` with density `5.0` yields population `10`
(and the rounding is half-to-even on ties: `2.5 ↦ 2`, `3.5 ↦ 4`). -/
theorem claim_C1 (areas : List SubadminAreaData) (demo : DemoRecord) (said : String)
    (v : ℚ) (sa : SubadminAreaData)
    (hm : demo.metric = "deer density") (hfind : findArea areas said = some sa) :
    (processDemo areas demo).metric = "total population (converted from density)"
    ∧ (processDemo areas demo).data
        = demo.data.map (fun kv => (kv.1, convertValue areas kv.1 kv.2))
    ∧ convertValue areas said v = ((roundHalfEven (v * (sa.aland / 1000000)) : ℤ) : ℚ)
    ∧ roundHalfEven ((5 : ℚ) * (2000000 / 1000000)) = 10
    ∧ roundHalfEven (5 / 2) = 2
    ∧ roundHalfEven (7 / 2) = 4 := by
  refine ⟨?_, ?_, convertValue_of_find v hfind, ?_, ?_, ?_⟩
  · simp [processDemo, hm]
  · simp [processDemo, hm]
  · norm_num [roundHalfEven]
  · norm_num [roundHalfEven]
  · norm_num [roundHalfEven]

/-- Witness for C1: one area of 2,000,000 m² and one deer-density record
of value 5 for that area. -/
theorem claim_C1_witness :
    (DemoRecord.mk "white-tailed deer" "deer density" "2023" [("A", 5)]).metric
        = "deer density"
    ∧ findArea [⟨"A", "Area", "State Area", 2000000⟩] "A"
        = some ⟨"A", "Area", "State Area", 2000000⟩
    ∧ ((processDemo [⟨"A", "Area", "State Area", 2000000⟩]
          ⟨"white-tailed deer", "deer density", "2023", [("A", 5)]⟩).metric
            = "total population (converted from density)"
       ∧ (processDemo [⟨"A", "Area", "State Area", 2000000⟩]
            ⟨"white-tailed deer", "deer density", "2023", [("A", 5)]⟩).data
              = [("A", (5 : ℚ))].map
                  (fun kv => (kv.1, convertValue [⟨"A", "Area", "State Area", 2000000⟩] kv.1 kv.2))
       ∧ convertValue [⟨"A", "Area", "State Area", 2000000⟩] "A" 5
            = ((roundHalfEven (5 * ((2000000 : ℚ) / 1000000)) : ℤ) : ℚ)
       ∧ roundHalfEven ((5 : ℚ) * (2000000 / 1000000)) = 10
       ∧ roundHalfEven (5 / 2) = 2
       ∧ roundHalfEven (7 / 2) = 4) :=
  ⟨rfl, by decide,
   claim_C1 [⟨"A", "Area", "State Area", 2000000⟩]
     ⟨"white-tailed deer", "deer density", "2023", [("A", 5)]⟩ "A" 5
     ⟨"A", "Area", "State Area", 2000000⟩ rfl (by decide)⟩

/-- Claim C2: after the density-conversion phase, the aggregator folds all
demography records into one flat mapping summing values per area id, and
emits one `{_id, value}` row per distinct area id in first-seen order;
e.g. `{X: 10}, {X: 5}, {Y: 3}` aggregates to `{X: 15, Y: 3}` with `X`
first. -/
theorem claim_C2 (demos : List DemoRecord) :
    (demography_data demos).map (fun r => r._id)
        = firstSeen ((allPairs demos).map Prod.fst)
    ∧ ((demography_data demos).map (fun r => r._id)).Nodup
    ∧ (∀ r ∈ demography_data demos, r.value = sumVal (allPairs demos) r._id)
    ∧ demography_data
        [⟨"white-tailed deer", "total population", "2023", [("X", 10)]⟩,
         ⟨"elk", "total population", "2023", [("X", 5), ("Y", 3)]⟩]
        = [⟨"X", 15⟩, ⟨"Y", 3⟩] := by
  refine ⟨?_, ?_, ?_, ?_⟩
  · simpa [demography_data, List.map_map, Function.comp] using keys_sumByArea demos
  · simpa [demography_data, List.map_map, Function.comp] using nodup_keys_sumByArea demos
  · intro r hr
    rw [demography_data] at hr
    obtain ⟨kv, hkv, rfl⟩ := List.mem_map.mp hr
    dsimp only
    rw [← sumVal_sumByArea]
    exact (sumVal_of_mem_nodup (nodup_keys_sumByArea demos) hkv).symm
  · have hxy : ¬ ("X" : String) = "Y" := by decide
    have hyx : ¬ ("Y" : String) = "X" := by decide
    simp only [demography_data, sumByArea, addToDict, List.foldl_cons, List.foldl_nil,
      hxy, hyx]
    norm_num

/-- Claim C3: the field coercer maps `"NA"` to null in the text fields,
maps `"NA"` to null and otherwise parses (degrading failures to null) in
the integer and float fields, and never rejects a row; in particular
`{n: "NA", N: "12", bayes: "0.5", Result: "NA"}` coerces to
`{n: null, N: 12, bayes: 0.5, Result: null}`. -/
theorem claim_C3 (a b c d e f g h : String) :
    coerceRow (cellRow (.str a) (.str b) (.str c) (.str d)
        (.str e) (.str f) (.str g) (.str h))
      = some (cellRow (coercedText a) (coercedText b) (coercedText c)
          (coercedInt d) (coercedInt e)
          (coercedFloat f) (coercedFloat g) (coercedFloat h))
    ∧ coerceRow (cellRow (.str "S1") (.str "Area") (.str "NA") (.str "NA")
        (.str "12") (.str "0.5") (.str "1") (.str "2"))
      = some (cellRow (.str "S1") (.str "Area") .null .null
          (.int 12) (.float (Rat.divInt 1 2)) (.float 1) (.float 2)) := by
  constructor
  · simp only [coerceRow, text_fields, integer_fields, float_fields, coerceFields,
      coerceText_SubAdminID, coerceText_SubAdminName, coerceText_Result,
      textCoerced_str, coerceInt_n, coerceInt_N,
      coerceFloat_bayes, coerceFloat_freq, coerceFloat_freqse]
  · decide

/-- Claim C4: zero selected-definitive tests give a null result, exactly
one gives that test's result (null when the test has no result field),
and more than one silently keeps the prior result value with no error. -/
theorem claim_C4 (tests : List TestRec) (prior : Option (Option String)) :
    (tests.countP (fun t => t.selected_definitive == true) = 0 →
        resolveResult tests prior = some none)
    ∧ (∀ t : TestRec, tests.filter (fun t => t.selected_definitive == true) = [t] →
        resolveResult tests prior = some t.result)
    ∧ (1 < tests.countP (fun t => t.selected_definitive == true) →
        resolveResult tests prior = prior) := by
  have hcount := List.countP_eq_length_filter
    (fun t : TestRec => t.selected_definitive == true) tests
  refine ⟨?_, ?_, ?_⟩
  · intro h0
    have hlen : (tests.filter (fun t => t.selected_definitive == true)).length = 0 := by
      rw [← hcount]; exact h0
    simp only [resolveResult]
    rw [hlen]
    simp
  · intro t ht
    simp only [resolveResult]
    rw [ht]
    simp
  · intro h1
    have hlen : 1 < (tests.filter (fun t => t.selected_definitive == true)).length := by
      rw [← hcount]; exact h1
    have h0 : ¬ (tests.filter (fun t => t.selected_definitive == true)).length = 0 := by
      omega
    simp only [resolveResult]
    rw [if_neg h0, if_pos hlen]

/-- Witness for C4: the zero / exactly-one (with and without a result
field) / more-than-one cases at concrete test lists. -/
theorem claim_C4_witness :
    resolveResult ([] : List TestRec) none = some none
    ∧ resolveResult [⟨true, some "positive"⟩] none = some (some "positive")
    ∧ resolveResult [⟨true, none⟩] none = some none
    ∧ resolveResult [⟨true, some "a"⟩, ⟨true, none⟩] (some (some "prior"))
        = some (some "prior") :=
  ⟨(claim_C4 [] none).1 (by decide),
   (claim_C4 [⟨true, some "positive"⟩] none).2.1 ⟨true, some "positive"⟩ (by decide),
   (claim_C4 [⟨true, none⟩] none).2.1 ⟨true, none⟩ (by decide),
   (claim_C4 [⟨true, some "a"⟩, ⟨true, none⟩] (some (some "prior"))).2.2 (by decide)⟩

/-- Claim C5: a structural failure of the coercion step (a row missing an
expected field, the key-error class) aborts the whole output pipeline:
the per-row coercion fails, the exception is logged, the exit code is 1,
and no `output.json` is written. -/
theorem claim_C5 (rows : List (List (String × String))) (r : List (String × String))
    (hmem : r ∈ rows) (hmiss : getCell? (rawRow r) "n" = none) :
    coerceRow (rawRow r) = none
    ∧ (output_processing rows).exit_code = 1
    ∧ (output_processing rows).output_json = none
    ∧ "Failed to convert model output field value to floating point."
        ∈ (output_processing rows).execution_log
    ∧ model_log_html "ERROR: Failed to create output file." "p"
        ∈ (output_processing rows).info_html := by
  have hfail := coerceRow_none_of_missing_n hmiss
  have hall : coerceRows (rows.map rawRow) = none :=
    coerceRows_none_of_mem (List.mem_map_of_mem rawRow hmem) hfail
  refine ⟨hfail, ?_, ?_, ?_, ?_⟩ <;>
    simp [output_processing, hall, model_log_html]

/-- Witness for C5: a single empty row (every expected field missing). -/
theorem claim_C5_witness :
    ([] : List (String × String)) ∈ [([] : List (String × String))]
    ∧ getCell? (rawRow []) "n" = none
    ∧ (coerceRow (rawRow []) = none
       ∧ (output_processing [[]]).exit_code = 1
       ∧ (output_processing [[]]).output_json = none
       ∧ "Failed to convert model output field value to floating point."
            ∈ (output_processing [[]]).execution_log
       ∧ model_log_html "ERROR: Failed to create output file." "p"
            ∈ (output_processing [[]]).info_html) :=
  ⟨by decide, rfl, claim_C5 [[]] [] (by decide) rfl⟩

/-- Counterexample to C6 as stated: in `sub_administrative_area.csv` the
numeric `aland` value of a record is written as a bare (unquoted) numeric
token, so not every field value is quoted. -/
theorem claim_C6_counterexample :
    allFieldsQuoted (subadminCsv [⟨"A", "name", "fullname", 2000000⟩]) = false := by
  decide

/-- Claim C6 (amended): in every tabular file written by the input
pipeline, a field value is quoted exactly when it is non-numeric (a
string or a null) — `QUOTE_NONNUMERIC` — integer and float values are
written as bare tokens, and nulls are written as the quoted empty
string rather than a sentinel. -/
theorem claim_C6 (env : InputEnv) (fname : String) (file : CsvFile)
    (row : List Cell) (c : Cell)
    (hf : (fname, file) ∈ (input_processing env).files)
    (hr : row ∈ file.rows) (hc : c ∈ row) :
    (isQuoted (renderCell c) = true ↔ c = Cell.null ∨ ∃ s, c = Cell.str s)
    ∧ renderCell Cell.null = quoteStr "" := by
  refine ⟨?_, rfl⟩
  cases c <;>
    simp [renderCell, isQuoted_quoteStr, isQuoted_intRepr, isQuoted_floatRepr]

/-- Witness for C6 at a concrete pipeline run and a string cell of the
written areas file. -/
theorem claim_C6_witness :
    ("sub_administrative_area.csv", subadminCsv [⟨"A", "n", "f", 1⟩])
        ∈ (input_processing
            ⟨some ⟨"NY", [("alpha", Cell.float 1)]⟩,
             some [⟨"A", "n", "f", 1, []⟩], some [], some []⟩).files
    ∧ [Cell.str "A", Cell.str "f", Cell.str "n", Cell.float 1]
        ∈ (subadminCsv [⟨"A", "n", "f", 1⟩]).rows
    ∧ Cell.str "A" ∈ [Cell.str "A", Cell.str "f", Cell.str "n", Cell.float 1]
    ∧ ((isQuoted (renderCell (Cell.str "A")) = true
          ↔ Cell.str "A" = Cell.null ∨ ∃ s, Cell.str "A" = Cell.str s)
       ∧ renderCell Cell.null = quoteStr "") :=
  ⟨by decide, by decide, by decide,
   claim_C6 ⟨some ⟨"NY", [("alpha", Cell.float 1)]⟩,
       some [⟨"A", "n", "f", 1, []⟩], some [], some []⟩
     "sub_administrative_area.csv" (subadminCsv [⟨"A", "n", "f", 1⟩])
     [Cell.str "A", Cell.str "f", Cell.str "n", Cell.float 1] (Cell.str "A")
     (by decide) (by decide) (by decide)⟩

/-- Counterexample to C7 as stated: a parameter set that still contains a
scalar field `beta` after the provider strip, yet `beta` appears nowhere
in the written `params.csv` output (the writer's fieldnames are fixed to
`alpha` and `sensitivity` with `extrasaction='ignore'`). -/
theorem claim_C7_counterexample :
    ("beta", Cell.int 3)
        ∈ ([("alpha", Cell.float 1), ("sensitivity", Cell.float 1), ("beta", Cell.int 3)]
            : List (String × Cell))
    ∧ ("beta", Cell.int 3)
        ∉ paramsWrittenPairs
            [("alpha", Cell.float 1), ("sensitivity", Cell.float 1), ("beta", Cell.int 3)]
    ∧ ∀ row ∈ (paramsCsv
        [("alpha", Cell.float 1), ("sensitivity", Cell.float 1), ("beta", Cell.int 3)]).rows,
        Cell.int 3 ∉ row := by
  decide

/-- Claim C7 (amended): after the provider strip, exactly the fields
named `alpha` and `sensitivity` are written to the params output, with
their values passed through unchanged; every other scalar field is
dropped by the writer. -/
theorem claim_C7 (scalars : List (String × Cell))
    (hnd : (scalars.map Prod.fst).Nodup) :
    (∀ v : Cell, ("alpha", v) ∈ scalars → getParamCell scalars "alpha" = v)
    ∧ (∀ v : Cell, ("sensitivity", v) ∈ scalars → getParamCell scalars "sensitivity" = v)
    ∧ (∀ kv ∈ paramsWrittenPairs scalars, kv.1 = "alpha" ∨ kv.1 = "sensitivity")
    ∧ (paramsCsv scalars).rows
        = [[getParamCell scalars "alpha", getParamCell scalars "sensitivity"]] := by
  refine ⟨?_, ?_, ?_, rfl⟩
  · intro v hv
    simp [getParamCell, find?_eq_of_nodup hnd hv]
  · intro v hv
    simp [getParamCell, find?_eq_of_nodup hnd hv]
  · intro kv hkv
    simp only [paramsWrittenPairs, List.mem_cons, List.not_mem_nil, or_false] at hkv
    rcases hkv with rfl | rfl
    · left; rfl
    · right; rfl

/-- Witness for C7 at a two-field parameter set. -/
theorem claim_C7_witness :
    (([("alpha", Cell.int 1), ("sensitivity", Cell.int 2)]
        : List (String × Cell)).map Prod.fst).Nodup
    ∧ getParamCell [("alpha", Cell.int 1), ("sensitivity", Cell.int 2)] "alpha" = Cell.int 1
    ∧ getParamCell [("alpha", Cell.int 1), ("sensitivity", Cell.int 2)] "sensitivity"
        = Cell.int 2 :=
  ⟨by decide,
   (claim_C7 [("alpha", Cell.int 1), ("sensitivity", Cell.int 2)] (by decide)).1
     (Cell.int 1) (by decide),
   (claim_C7 [("alpha", Cell.int 1), ("sensitivity", Cell.int 2)] (by decide)).2.1
     (Cell.int 2) (by decide)⟩

/-- Claim C8: with the parameters file absent the input pipeline exits
with code 1 after logging a diagnostic to both the execution log and the
human-readable log, and writes none of the four tabular files. -/
theorem claim_C8 (env : InputEnv) (h : env.params = none) :
    (input_processing env).exit_code = 1
    ∧ (input_processing env).files = []
    ∧ "params.json File does not exist." ∈ (input_processing env).execution_log
    ∧ model_log_html "ERROR" "h4" ∈ (input_processing env).info_html
    ∧ model_log_html "Parameters (params.json) file not found." "p"
        ∈ (input_processing env).info_html := by
  obtain ⟨p, sa, de, sm⟩ := env
  cases p with
  | some _ => simp at h
  | none =>
    refine ⟨rfl, rfl, ?_, ?_, ?_⟩ <;>
      simp [input_processing, initialExecLog, initialInfo, model_log_html]

/-- Witness for C8 at the empty environment. -/
theorem claim_C8_witness :
    (InputEnv.mk none none none none).params = none
    ∧ ((input_processing ⟨none, none, none, none⟩).exit_code = 1
       ∧ (input_processing ⟨none, none, none, none⟩).files = []
       ∧ "params.json File does not exist."
            ∈ (input_processing ⟨none, none, none, none⟩).execution_log
       ∧ model_log_html "ERROR" "h4"
            ∈ (input_processing ⟨none, none, none, none⟩).info_html
       ∧ model_log_html "Parameters (params.json) file not found." "p"
            ∈ (input_processing ⟨none, none, none, none⟩).info_html) :=
  ⟨rfl, claim_C8 ⟨none, none, none, none⟩ rfl⟩

/-- Claim C9: the area normalizer produces exactly one output row per
input record, preserving input order, projecting each record to exactly
the four fields `_id`, `name`, `full_name`, `aland` (any extra fields
dropped), with a fixed field order in the written output; no
deduplication — duplicate ids yield duplicate rows. -/
theorem claim_C9 (raws : List RawSubadminArea) :
    subadmin_areas_data raws = raws.map subadminRecord
    ∧ (subadmin_areas_data raws).length = raws.length
    ∧ (∀ i : Nat, (subadmin_areas_data raws)[i]? = (raws[i]?).map subadminRecord)
    ∧ (subadminCsv (subadmin_areas_data raws)).header = ["_id", "full_name", "name", "aland"]
    ∧ (subadminCsv (subadmin_areas_data raws)).rows.length = raws.length
    ∧ (∀ (i nm fn : String) (al : ℚ) (e1 e2 : List (String × Cell)),
        subadminRecord ⟨i, nm, fn, al, e1⟩ = subadminRecord ⟨i, nm, fn, al, e2⟩)
    ∧ subadmin_areas_data [⟨"A", "n", "f", 1, []⟩, ⟨"A", "n", "f", 1, []⟩]
        = [⟨"A", "n", "f", 1⟩, ⟨"A", "n", "f", 1⟩] := by
  have hmap : subadmin_areas_data raws = raws.map subadminRecord := by
    induction raws with
    | nil => rfl
    | cons r rest ih => rw [subadmin_areas_data, ih, List.map_cons]
  refine ⟨hmap, ?_, ?_, rfl, ?_, fun i nm fn al e1 e2 => rfl, by decide⟩
  · rw [hmap, List.length_map]
  · intro i
    rw [hmap, List.getElem?_map]
  · show ((subadmin_areas_data raws).map _).length = raws.length
    rw [List.length_map, hmap, List.length_map]

/-- Claim C10: a deer-density data pair whose area id matches no
normalized area passes through the conversion unchanged and without
error, the record's metric is still rewritten to the population-derived
label, and the unconverted density value is summed into the per-area
totals exactly like a population count. -/
theorem claim_C10 (areas : List SubadminAreaData) (said : String)
    (hno : ∀ sa ∈ areas, sa._id ≠ said) :
    findArea areas said = none
    ∧ (∀ v : ℚ, convertValue areas said v = v)
    ∧ (∀ demo : DemoRecord, demo.metric = "deer density" →
        (processDemo areas demo).metric = "total population (converted from density)")
    ∧ (∀ demo : DemoRecord,
        sumVal (processDemo areas demo).data said = sumVal demo.data said)
    ∧ (∀ demos : List DemoRecord,
        sumVal (sumByArea (demos.map (processDemo areas))) said
          = sumVal (allPairs demos) said) := by
  refine ⟨findArea_eq_none hno, convertValue_of_no_match hno, ?_,
    sumVal_processDemo_no_match hno, ?_⟩
  · intro demo hm
    simp [processDemo, hm]
  · intro demos
    rw [sumVal_sumByArea, sumVal_allPairs_processDemo hno]

/-- Witness for C10: one area `"A"` and the unmatched id `"Z"`. -/
theorem claim_C10_witness :
    (∀ sa ∈ ([⟨"A", "n", "f", 2000000⟩] : List SubadminAreaData), sa._id ≠ "Z")
    ∧ (findArea [⟨"A", "n", "f", 2000000⟩] "Z" = none
       ∧ (∀ v : ℚ, convertValue [⟨"A", "n", "f", 2000000⟩] "Z" v = v)
       ∧ (∀ demo : DemoRecord, demo.metric = "deer density" →
            (processDemo [⟨"A", "n", "f", 2000000⟩] demo).metric
              = "total population (converted from density)")
       ∧ (∀ demo : DemoRecord,
            sumVal (processDemo [⟨"A", "n", "f", 2000000⟩] demo).data "Z"
              = sumVal demo.data "Z")
       ∧ (∀ demos : List DemoRecord,
            sumVal (sumByArea (demos.map (processDemo [⟨"A", "n", "f", 2000000⟩]))) "Z"
              = sumVal (allPairs demos) "Z")) :=
  ⟨by decide, claim_C10 [⟨"A", "n", "f", 2000000⟩] "Z" (by decide)⟩

end Supe

